import Mathlib

/-!
Verification of the videoSpliter domain engine (planning / validation layer).

Shallow embedding conventions:
* JavaScript numbers are modelled as rationals (`ℚ`).  Every quantity the
  claims mention is finite, and on the operations used here (field
  arithmetic, comparisons, rounding) the rational model agrees with the
  intended real-number semantics.  Consequently the runtime checks
  `Number.isFinite(x)` from the source are identically true in the model;
  each place where such a check is dropped is marked with a comment.
* A TypeScript function that can `throw` is modelled as returning
  `Except String α`, with the thrown message as the error value.
* `Math.round(x)` is `⌊x + 1/2⌋` (JavaScript rounds half-up).
-/

/-- Model of JavaScript Math.round: round half towards positive infinity. -/
def jsRound (x : ℚ) : ℤ := ⌊x + 1/2⌋

/-- Model of String.prototype.trim: drop whitespace from both ends,
defined structurally over the character list so that it evaluates inside
the kernel. -/
def jsTrim (s : String) : String :=
  ⟨((s.data.dropWhile Char.isWhitespace).reverse.dropWhile
      Char.isWhitespace).reverse⟩

/-- Model of String.prototype.toLowerCase, structurally over the
character list. -/
def jsToLower (s : String) : String := ⟨s.data.map Char.toLower⟩

/-- Model of String.prototype.endsWith, structurally over the character
lists. -/
def jsEndsWith (s : String) (pattern : String) : Bool :=
  pattern.data.isSuffixOf s.data

/-! ## Data model (src/apps/mobile/src/domain/models) -/

/-- ExtractionStrategy: closed discriminated union of the five sampling
strategies (models/ExtractionStrategy, src/unnamed/part_010). -/
inductive ExtractionStrategy : Type
  | uniform (frameCount : ℚ)
  | interval (intervalSeconds : ℚ)
  | frameBased (frameInterval : ℚ)
  | allFrames
  | customFps (fps : ℚ)
deriving DecidableEq, Repr

/-- VideoMetadata as returned by the video processing capability. -/
structure VideoMetadata : Type where
  duration : ℚ
  width : ℚ
  height : ℚ
  frameRate : ℚ
  codec : String
  bitrate : ℚ
deriving DecidableEq, Repr

/-- FrameExtractionRequest (models/FrameExtractionRequest): quality is
optional. -/
structure FrameExtractionRequest : Type where
  videoPath : String
  outputDirectory : String
  strategy : ExtractionStrategy
  quality : Option ℚ
deriving DecidableEq, Repr

/-- ValidationError record: field name, human readable message, error code
(models/ValidationResult.ts). -/
structure ValidationError : Type where
  field : String
  message : String
  code : String
deriving DecidableEq, Repr

/-- ValidationResult discriminated union from models/ValidationResult.ts:
either valid, or invalid carrying the error list. -/
inductive ValidationResult : Type
  | valid
  | invalid (errors : List ValidationError)
deriving DecidableEq, Repr

/-- FrameInfo: frame number (0-indexed), timestamp in seconds, file path
(src/unnamed/part_009, FrameInfo interface). -/
structure FrameInfo : Type where
  frameNumber : ℚ
  timestamp : ℚ
  path : String
deriving DecidableEq, Repr

/-- ExtractionResult domain model (src/unnamed/part_009). -/
structure ExtractionResult : Type where
  frames : List FrameInfo
  totalFrames : ℚ
  actualStorageMB : ℚ
  processingTimeMs : ℚ
  strategy : ExtractionStrategy
deriving DecidableEq, Repr

/-- Video resolution component of a plan. -/
structure VideoResolution : Type where
  width : ℚ
  height : ℚ
deriving DecidableEq, Repr

/-- FrameExtractionPlan (models/FrameExtractionPlan): request echo plus
computed values plus source metadata. -/
structure FrameExtractionPlan : Type where
  videoPath : String
  outputDirectory : String
  strategy : ExtractionStrategy
  quality : ℚ
  extractionFps : ℚ
  estimatedFrameCount : ℚ
  estimatedStorageMB : ℚ
  estimatedDurationMs : ℚ
  videoDuration : ℚ
  videoFps : ℚ
  videoResolution : VideoResolution
deriving DecidableEq, Repr

/-! ## FPS calculations (src/apps/mobile/src/domain/calculations/fpsCalculations.ts) -/

/-- calculateUniformSamplingFps: frameCount / duration, throwing on
non-positive duration or frame count (fpsCalculations.ts lines 17-28). -/
def calculateUniformSamplingFps (frameCount : ℚ) (duration : ℚ) :
    Except String ℚ :=
  if duration ≤ 0 then .error "Duration must be greater than 0"
  else if frameCount ≤ 0 then .error "Frame count must be greater than 0"
  else .ok (frameCount / duration)

/-- calculateIntervalBasedFps: 1 / intervalSeconds, throwing on a
non-positive interval (fpsCalculations.ts lines 42-49). -/
def calculateIntervalBasedFps (intervalSeconds : ℚ) : Except String ℚ :=
  if intervalSeconds ≤ 0 then .error "Interval must be greater than 0"
  else .ok (1 / intervalSeconds)

/-- calculateFrameBasedFps: videoFps / frameInterval, throwing on
non-positive inputs (fpsCalculations.ts lines 65-76). -/
def calculateFrameBasedFps (frameInterval : ℚ) (videoFps : ℚ) :
    Except String ℚ :=
  if frameInterval ≤ 0 then .error "Frame interval must be greater than 0"
  else if videoFps ≤ 0 then .error "Video FPS must be greater than 0"
  else .ok (videoFps / frameInterval)

/-- calculateExtractionFps: dispatch on the strategy tag
(fpsCalculations.ts lines 95-122).  The all-frames case returns the native
frame rate unchanged and the custom-fps case returns the strategy fps
unchanged, with no positivity check in either case.  The default branch of
the source switch is unreachable because the strategy type is a closed
union. -/
def calculateExtractionFps (strategy : ExtractionStrategy)
    (metadata : VideoMetadata) : Except String ℚ :=
  match strategy with
  | .uniform frameCount =>
      calculateUniformSamplingFps frameCount metadata.duration
  | .interval intervalSeconds => calculateIntervalBasedFps intervalSeconds
  | .frameBased frameInterval =>
      calculateFrameBasedFps frameInterval metadata.frameRate
  | .allFrames => .ok metadata.frameRate
  | .customFps fps => .ok fps

/-- estimateFrameCount: Math.round(fps * duration), throwing on fps ≤ 0 or
duration < 0 (fpsCalculations.ts lines 135-147). -/
def estimateFrameCount (fps : ℚ) (duration : ℚ) : Except String ℚ :=
  if fps ≤ 0 then .error "FPS must be greater than 0"
  else if duration < 0 then .error "Duration cannot be negative"
  else .ok ((jsRound (fps * duration) : ℤ) : ℚ)

/-! ## Storage estimation (src/apps/mobile/src/domain/calculations/storageEstimation.ts) -/

/-- JPEG_COMPRESSION_RATIOS lookup table keyed by integer quality 1-31
(storageEstimation.ts lines 18-59); absent keys yield none. -/
def JPEG_COMPRESSION_RATIOS (quality : ℤ) : Option ℚ :=
  if quality = 1 then some (15/100)
  else if quality = 2 then some (12/100)
  else if quality = 3 then some (1/10)
  else if quality = 4 then some (8/100)
  else if quality = 5 then some (7/100)
  else if quality = 6 then some (6/100)
  else if quality = 7 then some (5/100)
  else if quality = 8 then some (45/1000)
  else if quality = 9 then some (4/100)
  else if quality = 10 then some (35/1000)
  else if quality = 11 then some (3/100)
  else if quality = 12 then some (28/1000)
  else if quality = 13 then some (26/1000)
  else if quality = 14 then some (24/1000)
  else if quality = 15 then some (22/1000)
  else if quality = 16 then some (2/100)
  else if quality = 17 then some (19/1000)
  else if quality = 18 then some (18/1000)
  else if quality = 19 then some (17/1000)
  else if quality = 20 then some (16/1000)
  else if quality = 21 then some (15/1000)
  else if quality = 22 then some (14/1000)
  else if quality = 23 then some (13/1000)
  else if quality = 24 then some (12/1000)
  else if quality = 25 then some (11/1000)
  else if quality = 26 then some (1/100)
  else if quality = 27 then some (9/1000)
  else if quality = 28 then some (8/1000)
  else if quality = 29 then some (7/1000)
  else if quality = 30 then some (6/1000)
  else if quality = 31 then some (5/1000)
  else none

/-- SAFETY_MARGIN multiplier (storageEstimation.ts line 67). -/
def SAFETY_MARGIN : ℚ := 3/2

/-- getCompressionRatio: clamp Math.round(quality) to 1..31, look the
result up in the table, default 0.1 (storageEstimation.ts lines 75-80). -/
def getCompressionRatio (quality : ℚ) : ℚ :=
  let clampedQuality : ℤ := max 1 (min 31 (jsRound quality))
  (JPEG_COMPRESSION_RATIOS clampedQuality).getD (1/10)

/-- estimateFrameStorageSize: width*height*3 bytes, times compression
ratio, times safety margin, converted to MB; throws on non-positive
dimensions or quality outside 1..31 (storageEstimation.ts lines 95-119). -/
def estimateFrameStorageSize (width : ℚ) (height : ℚ) (quality : ℚ) :
    Except String ℚ :=
  if width ≤ 0 ∨ height ≤ 0 then
    .error "Width and height must be greater than 0"
  else if quality < 1 ∨ quality > 31 then
    .error "Quality must be between 1 and 31"
  else
    let uncompressedBytes := width * height * 3
    let compressionRatio := getCompressionRatio quality
    let compressedBytes := uncompressedBytes * compressionRatio
    let estimatedBytes := compressedBytes * SAFETY_MARGIN
    let megabytes := estimatedBytes / (1024 * 1024)
    .ok megabytes

/-- estimateTotalStorageSize: frameCount * per-frame size; 0 for zero
frames (returned before the per-frame size is computed), error for a
negative frame count (storageEstimation.ts lines 134-153). -/
def estimateTotalStorageSize (frameCount : ℚ) (width : ℚ) (height : ℚ)
    (quality : ℚ) : Except String ℚ :=
  if frameCount < 0 then .error "Frame count cannot be negative"
  else if frameCount = 0 then .ok 0
  else do
    let sizePerFrame ← estimateFrameStorageSize width height quality
    .ok (sizePerFrame * frameCount)

/-- estimateProcessingDuration: 100 ms per frame; 0 for zero frames, error
for a negative frame count (storageEstimation.ts lines 174-188). -/
def estimateProcessingDuration (frameCount : ℚ) : Except String ℚ :=
  if frameCount < 0 then .error "Frame count cannot be negative"
  else if frameCount = 0 then .ok 0
  else .ok (frameCount * 100)

/-! ## Frame timestamps (src/unnamed/part_014) -/

/-- calculateFrameTimestamp: frameNumber / fps, throwing on a negative
frame number or non-positive fps (part_014 lines 18-30). -/
def calculateFrameTimestamp (frameNumber : ℚ) (fps : ℚ) :
    Except String ℚ :=
  if frameNumber < 0 then .error "Frame number cannot be negative"
  else if fps ≤ 0 then .error "FPS must be greater than 0"
  else .ok (frameNumber / fps)

/-- Helper for generateFrameInfos: the index-carrying map underlying the
source's outputPaths.map((path, index) => ...) callback. -/
def generateFrameInfosAux (fps : ℚ) : ℕ → List String →
    Except String (List FrameInfo)
  | _, [] => .ok []
  | index, path :: rest => do
    let timestamp ← calculateFrameTimestamp (index : ℚ) fps
    let tail ← generateFrameInfosAux fps (index + 1) rest
    .ok (⟨(index : ℚ), timestamp, path⟩ :: tail)

/-- generateFrameInfos: check fps, then map each path at index i to the
FrameInfo with frameNumber i, timestamp i/fps, and that path
(part_014 lines 51-61). -/
def generateFrameInfos (outputPaths : List String) (fps : ℚ) :
    Except String (List FrameInfo) :=
  if fps ≤ 0 then .error "FPS must be greater than 0"
  else generateFrameInfosAux fps 0 outputPaths

/-- calculateActualStorageSize: placeholder that always returns 0
(part_014 lines 73-83). -/
def calculateActualStorageSize (_paths : List String) : ℚ := 0

/-! ## Validation rules (validationRules.ts, src/unnamed/part_009 tail) -/

namespace VALIDATION_RULES

/-- Minimum frame count for uniform sampling. -/
def MIN_FRAME_COUNT : ℚ := 1

/-- Maximum frame count for uniform sampling. -/
def MAX_FRAME_COUNT : ℚ := 10000

/-- Minimum interval in seconds. -/
def MIN_INTERVAL_SECONDS : ℚ := 1/1000

/-- Maximum interval in seconds. -/
def MAX_INTERVAL_SECONDS : ℚ := 3600

/-- Minimum frame interval. -/
def MIN_FRAME_INTERVAL : ℚ := 1

/-- Maximum frame interval. -/
def MAX_FRAME_INTERVAL : ℚ := 1000

/-- Minimum custom fps. -/
def MIN_FPS : ℚ := 1/1000

/-- Maximum custom fps. -/
def MAX_FPS : ℚ := 120

/-- Minimum quality. -/
def MIN_QUALITY : ℚ := 1

/-- Maximum quality. -/
def MAX_QUALITY : ℚ := 31

/-- Default quality when a request does not supply one. -/
def DEFAULT_QUALITY : ℚ := 2

/-- Storage quota in MB. -/
def MAX_ESTIMATED_STORAGE_MB : ℚ := 5000

end VALIDATION_RULES

/-! ## Strategy validators (domain/validation/validators/strategyValidators.ts)

The Number.isFinite guards of the source are identically true in the
rational model, so only the Number.isInteger part of the combined
finite-and-integer guards remains; an integer check on a rational is a
denominator-one check. -/

/-- validateUniformSampling (strategyValidators.ts lines 12-41). -/
def validateUniformSampling (frameCount : ℚ) : List ValidationError :=
  if frameCount.den ≠ 1 then
    [⟨"frameCount", "Frame count must be a valid integer",
      "INVALID_FRAME_COUNT"⟩]
  else
    (if frameCount < VALIDATION_RULES.MIN_FRAME_COUNT then
      [⟨"frameCount", "Frame count must be at least 1",
        "FRAME_COUNT_TOO_LOW"⟩]
    else []) ++
    (if frameCount > VALIDATION_RULES.MAX_FRAME_COUNT then
      [⟨"frameCount", "Frame count cannot exceed 10000",
        "FRAME_COUNT_TOO_HIGH"⟩]
    else [])

/-- validateIntervalBased (strategyValidators.ts lines 51-80); the
non-finite branch of the source is unrepresentable in the model. -/
def validateIntervalBased (intervalSeconds : ℚ) : List ValidationError :=
  (if intervalSeconds < VALIDATION_RULES.MIN_INTERVAL_SECONDS then
    [⟨"intervalSeconds", "Interval must be at least 0.001 seconds",
      "INTERVAL_TOO_LOW"⟩]
  else []) ++
  (if intervalSeconds > VALIDATION_RULES.MAX_INTERVAL_SECONDS then
    [⟨"intervalSeconds", "Interval cannot exceed 3600 seconds",
      "INTERVAL_TOO_HIGH"⟩]
  else [])

/-- validateFrameBased (strategyValidators.ts lines 90-119). -/
def validateFrameBased (frameInterval : ℚ) : List ValidationError :=
  if frameInterval.den ≠ 1 then
    [⟨"frameInterval", "Frame interval must be a valid integer",
      "INVALID_FRAME_INTERVAL"⟩]
  else
    (if frameInterval < VALIDATION_RULES.MIN_FRAME_INTERVAL then
      [⟨"frameInterval", "Frame interval must be at least 1",
        "FRAME_INTERVAL_TOO_LOW"⟩]
    else []) ++
    (if frameInterval > VALIDATION_RULES.MAX_FRAME_INTERVAL then
      [⟨"frameInterval", "Frame interval cannot exceed 1000",
        "FRAME_INTERVAL_TOO_HIGH"⟩]
    else [])

/-- validateAllFrames: no parameters, always valid
(strategyValidators.ts lines 128-131). -/
def validateAllFrames : List ValidationError := []

/-- validateCustomFps (strategyValidators.ts lines 141-170); the
non-finite branch of the source is unrepresentable in the model. -/
def validateCustomFps (fps : ℚ) : List ValidationError :=
  (if fps < VALIDATION_RULES.MIN_FPS then
    [⟨"fps", "FPS must be at least 0.001", "FPS_TOO_LOW"⟩]
  else []) ++
  (if fps > VALIDATION_RULES.MAX_FPS then
    [⟨"fps", "FPS cannot exceed 120", "FPS_TOO_HIGH"⟩]
  else [])

/-- validateStrategy dispatcher (strategyValidators.ts lines 180-209); the
unknown-strategy default branch is unreachable on the closed union. -/
def validateStrategy (strategy : ExtractionStrategy) :
    List ValidationError :=
  match strategy with
  | .uniform frameCount => validateUniformSampling frameCount
  | .interval intervalSeconds => validateIntervalBased intervalSeconds
  | .frameBased frameInterval => validateFrameBased frameInterval
  | .allFrames => validateAllFrames
  | .customFps fps => validateCustomFps fps

/-! ## Parameter validators (domain/validation/validators/parameterValidators.ts) -/

/-- validateQuality (parameterValidators.ts lines 222-243); the
non-finite branch of the source is unrepresentable in the model. -/
def validateQuality (quality : ℚ) : List ValidationError :=
  if quality < VALIDATION_RULES.MIN_QUALITY ∨
      quality > VALIDATION_RULES.MAX_QUALITY then
    [⟨"quality", "Quality must be between 1 and 31",
      "QUALITY_OUT_OF_RANGE"⟩]
  else []

/-- validateNonEmptyString (parameterValidators.ts lines 254-275); the
typeof guard of the source is unrepresentable on a typed string. -/
def validateNonEmptyString (value : String) (fieldName : String) :
    List ValidationError :=
  if (jsTrim value).length = 0 then
    [⟨fieldName, fieldName ++ " cannot be empty", "EMPTY_PATH"⟩]
  else []

/-- validateVideoPath (parameterValidators.ts lines 286-288). -/
def validateVideoPath (videoPath : String) : List ValidationError :=
  validateNonEmptyString videoPath "videoPath"

/-- validateOutputDirectory (parameterValidators.ts lines 299-301). -/
def validateOutputDirectory (outputDirectory : String) :
    List ValidationError :=
  validateNonEmptyString outputDirectory "outputDirectory"

/-! ## Request validator (src/unnamed/part_009) -/

/-- The errors array built by validateRequest: the concatenation of all
sub-validator outputs in the order the source pushes them
(part_009 lines 38-52). -/
def requestValidationErrors (request : FrameExtractionRequest) :
    List ValidationError :=
  validateVideoPath request.videoPath ++
  validateOutputDirectory request.outputDirectory ++
  validateStrategy request.strategy ++
  (match request.quality with
    | none => []
    | some quality => validateQuality quality)

/-- validateRequest: concatenate the sub-validator outputs for video path,
output directory, strategy and (when present) quality, then return valid
exactly when the combined list is empty (part_009 lines 37-60). -/
def validateRequest (request : FrameExtractionRequest) : ValidationResult :=
  let errors := requestValidationErrors request
  if errors.isEmpty then .valid else .invalid errors

/-- validateStorageEstimate: error when the estimate exceeds the 5000 MB
quota (part_009 lines 70-88).  The Number.isFinite skip branch of the
source is identically false in the rational model, where every value is
finite; the toFixed(0) digit formatting in the message is rendered via
jsRound. -/
def validateStorageEstimate (estimatedStorageMB : ℚ) :
    List ValidationError :=
  if estimatedStorageMB > VALIDATION_RULES.MAX_ESTIMATED_STORAGE_MB then
    [⟨"estimatedStorageMB",
      "Estimated storage (" ++ toString (jsRound estimatedStorageMB) ++
        "MB) exceeds limit of 5000MB",
      "STORAGE_LIMIT_EXCEEDED"⟩]
  else []

/-! ## Video file validator (src/unnamed/part_008) -/

/-- VideoFile descriptor from the file picker adapter; the MIME type is
optional. -/
structure VideoFile : Type where
  uri : String
  fileName : String
  type : Option String
  fileSize : ℚ
deriving DecidableEq, Repr

/-- SUPPORTED_VIDEO_EXTENSIONS (part_008 lines 9-21). -/
def SUPPORTED_VIDEO_EXTENSIONS : List String :=
  [".mp4", ".mov", ".avi", ".mkv", ".m4v", ".3gp", ".webm", ".flv",
   ".wmv", ".mpeg", ".mpg"]

/-- SUPPORTED_MIME_TYPES (part_008 lines 28-38). -/
def SUPPORTED_MIME_TYPES : List String :=
  ["video/mp4", "video/quicktime", "video/x-msvideo", "video/x-matroska",
   "video/3gpp", "video/webm", "video/x-flv", "video/x-ms-wmv",
   "video/mpeg"]

/-- LARGE_FILE_THRESHOLD_BYTES: 500 MB (part_008 line 56). -/
def LARGE_FILE_THRESHOLD_BYTES : ℚ := 500 * 1024 * 1024

/-- validateVideoFile (part_008 lines 75-144): required-field checks
short-circuit; then extension, optional MIME type, and a large-file
warning pushed when the size strictly exceeds the threshold.  A JavaScript
falsy string is exactly the empty string, so the guard on a missing field
is the trim-empty test alone, and an empty MIME type string skips the MIME
check. -/
def validateVideoFile (file : VideoFile) : ValidationResult :=
  let requiredErrors : List ValidationError :=
    (if jsTrim file.uri = "" then
      [⟨"uri", "Video URI is missing", "MISSING_URI"⟩]
    else []) ++
    (if jsTrim file.fileName = "" then
      [⟨"fileName", "Video file name is missing", "MISSING_FILENAME"⟩]
    else [])
  if requiredErrors ≠ [] then .invalid requiredErrors
  else
    let hasValidExtension := SUPPORTED_VIDEO_EXTENSIONS.any
      (fun ext => jsEndsWith (jsToLower file.fileName) ext)
    let errors : List ValidationError :=
      (if ¬ hasValidExtension then
        [⟨"fileName",
          "Unsupported video format. Please select one of: " ++
            String.intercalate ", " SUPPORTED_VIDEO_EXTENSIONS,
          "UNSUPPORTED_FORMAT"⟩]
      else []) ++
      (match file.type with
        | some t =>
          if t ≠ "" ∧ ¬ SUPPORTED_MIME_TYPES.contains t then
            [⟨"type",
              "Invalid video MIME type: " ++ t ++ ". Expected one of: " ++
                String.intercalate ", " SUPPORTED_MIME_TYPES,
              "INVALID_MIME_TYPE"⟩]
          else []
        | none => []) ++
      (if file.fileSize > LARGE_FILE_THRESHOLD_BYTES then
        [⟨"fileSize",
          "Large video file (" ++
            toString (jsRound (file.fileSize / (1024 * 1024))) ++
            " MB) may take longer to process and use significant storage.",
          "LARGE_FILE_WARNING"⟩]
      else [])
    if errors.isEmpty then .valid else .invalid errors

/-- isWarning: true exactly for the LARGE_FILE_WARNING code
(part_008 lines 160-162). -/
def isWarning (error : ValidationError) : Bool :=
  error.code == "LARGE_FILE_WARNING"

/-! ## Adapter boundary (domain/adapters, src/unnamed/part_015) -/

/-- VideoProcessingErrorCode enumeration (part_015 lines 4-13).  The
INVALID_PARAMS member is referenced by the orchestration service
(part_012 lines 77 and 133) although the enum declaration shown in
part_015 omits it; it is included here so the service can be embedded as
written. -/
inductive VideoProcessingErrorCode : Type
  | INVALID_VIDEO_PATH
  | INVALID_OUTPUT_DIR
  | FFMPEG_FAILED
  | VIDEO_NOT_FOUND
  | UNSUPPORTED_FORMAT
  | INSUFFICIENT_STORAGE
  | CANCELLED
  | UNKNOWN
  | INVALID_PARAMS
deriving DecidableEq, Repr

/-- VideoProcessingError: message, code, and the originalError payload,
which the service fills with a validation error list (part_015
lines 18-31). -/
structure VideoProcessingError : Type where
  message : String
  code : VideoProcessingErrorCode
  originalError : List ValidationError
deriving DecidableEq, Repr

/-- A failure escaping the orchestration service: either a
VideoProcessingError, or an uncaught plain Error thrown by a calculation
function. -/
inductive JsError : Type
  | plain (message : String)
  | vp (e : VideoProcessingError)
deriving DecidableEq, Repr

/-- FrameExtractionConfig passed to the adapter; frame rate and quality
are optional in the adapter interface. -/
structure FrameExtractionConfig : Type where
  videoPath : String
  outputDirectory : String
  frameRate : Option ℚ
  quality : Option ℚ
deriving DecidableEq, Repr

/-- FrameExtractionResult reported by the adapter: the ordered produced
file paths, the reported frame count, and the processing time. -/
structure FrameExtractionResult : Type where
  outputPaths : List String
  frameCount : ℚ
  processingTimeMs : ℚ
deriving DecidableEq, Repr

/-- VideoProcessingAdapter capability: metadata fetch and extraction, each
of which may fail with a VideoProcessingError. -/
structure VideoProcessingAdapter : Type where
  getVideoMetadata : String → Except VideoProcessingError VideoMetadata
  extractFrames : FrameExtractionConfig →
    Except VideoProcessingError FrameExtractionResult

/-- One call into the external video capability, recorded in order by the
embedded service so that claims about the capability never being invoked
are expressible. -/
inductive CapCall : Type
  | getMetadata (videoPath : String)
  | extract (config : FrameExtractionConfig)
deriving DecidableEq, Repr

/-! ## Orchestration service (src/unnamed/part_012) -/

namespace FrameExtractionService

/-- createPlan (part_012 lines 178-224): fps from the strategy, then frame
count, then storage with the resolved quality, then duration, composed
into the plan record. -/
def createPlan (request : FrameExtractionRequest)
    (metadata : VideoMetadata) : Except String FrameExtractionPlan := do
  let extractionFps ← calculateExtractionFps request.strategy metadata
  let estimatedFrameCount ← estimateFrameCount extractionFps
    metadata.duration
  let quality := request.quality.getD VALIDATION_RULES.DEFAULT_QUALITY
  let estimatedStorageMB ← estimateTotalStorageSize estimatedFrameCount
    metadata.width metadata.height quality
  let estimatedDurationMs ← estimateProcessingDuration estimatedFrameCount
  .ok
    { videoPath := request.videoPath
      outputDirectory := request.outputDirectory
      strategy := request.strategy
      quality := quality
      extractionFps := extractionFps
      estimatedFrameCount := estimatedFrameCount
      estimatedStorageMB := estimatedStorageMB
      estimatedDurationMs := estimatedDurationMs
      videoDuration := metadata.duration
      videoFps := metadata.frameRate
      videoResolution := ⟨metadata.width, metadata.height⟩ }

/-- planToAdapterConfig (part_012 lines 231-238). -/
def planToAdapterConfig (plan : FrameExtractionPlan) :
    FrameExtractionConfig :=
  { videoPath := plan.videoPath
    outputDirectory := plan.outputDirectory
    frameRate := some plan.extractionFps
    quality := some plan.quality }

/-- transformResult (part_012 lines 245-270): frames from the ordered
output paths and the plan fps, totalFrames copied from the adapter-reported
frame count, actualStorageMB copied from the plan estimate (the stated
placeholder behavior - no file sizes are read). -/
def transformResult (adapterResult : FrameExtractionResult)
    (plan : FrameExtractionPlan) : Except String ExtractionResult := do
  let frames ← generateFrameInfos adapterResult.outputPaths
    plan.extractionFps
  let actualStorageMB := plan.estimatedStorageMB
  .ok
    { frames := frames
      totalFrames := adapterResult.frameCount
      actualStorageMB := actualStorageMB
      processingTimeMs := adapterResult.processingTimeMs
      strategy := plan.strategy }

/-- extractFrames (part_012 lines 69-106): validate, fetch metadata, plan,
check the storage quota, extract, transform.  The second component of the
result is the ordered list of calls made into the external capability. -/
def extractFrames (adapter : VideoProcessingAdapter)
    (request : FrameExtractionRequest) :
    Except JsError ExtractionResult × List CapCall :=
  match validateRequest request with
  | .invalid errors =>
    (.error (.vp
      ⟨"Invalid extraction request: " ++
        String.intercalate ", " (errors.map (fun e => e.message)),
        .INVALID_PARAMS, errors⟩), [])
  | .valid =>
    match adapter.getVideoMetadata request.videoPath with
    | .error e => (.error (.vp e), [.getMetadata request.videoPath])
    | .ok metadata =>
      match createPlan request metadata with
      | .error msg =>
        (.error (.plain msg), [.getMetadata request.videoPath])
      | .ok plan =>
        match validateStorageEstimate plan.estimatedStorageMB with
        | firstError :: rest =>
          (.error (.vp ⟨firstError.message, .INSUFFICIENT_STORAGE,
            firstError :: rest⟩), [.getMetadata request.videoPath])
        | [] =>
          let adapterConfig := planToAdapterConfig plan
          match adapter.extractFrames adapterConfig with
          | .error e =>
            (.error (.vp e),
              [.getMetadata request.videoPath, .extract adapterConfig])
          | .ok adapterResult =>
            match transformResult adapterResult plan with
            | .error msg =>
              (.error (.plain msg),
                [.getMetadata request.videoPath, .extract adapterConfig])
            | .ok result =>
              (.ok result,
                [.getMetadata request.videoPath, .extract adapterConfig])

end FrameExtractionService

/-! ## Concrete fixtures used by witnesses and counterexamples -/

/-- Sample metadata: a 60 second 1080p clip at 30 fps, matching the test
fixtures of the repository. -/
def sampleMetadata : VideoMetadata := ⟨60, 1920, 1080, 30, "h264", 5000000⟩

/-- A well-behaved adapter: metadata always available, extraction reports
two produced paths and a matching frame count. -/
def sampleAdapter : VideoProcessingAdapter :=
  { getVideoMetadata := fun _ => .ok sampleMetadata
    extractFrames := fun _ => .ok ⟨["a.jpg", "b.jpg"], 2, 100⟩ }

/-- An adapter whose extraction reply reports a frame count of 2 while
producing a single output path. -/
def inconsistentAdapter : VideoProcessingAdapter :=
  { getVideoMetadata := fun _ => .ok sampleMetadata
    extractFrames := fun _ => .ok ⟨["a.jpg"], 2, 100⟩ }

/-- A valid request: uniform sampling of 100 frames at quality 2. -/
def sampleRequest : FrameExtractionRequest :=
  ⟨"/v.mp4", "/out", .uniform 100, some 2⟩

/-- A valid request whose plan blows the storage quota (the spec scenario:
10000 frames of 1080p at quality 1). -/
def oversizedRequest : FrameExtractionRequest :=
  ⟨"/v.mp4", "/out", .uniform 10000, some 1⟩

/-- A request violating all four validated fields. -/
def invalidRequest : FrameExtractionRequest := ⟨"", "", .uniform 0, some 0⟩

/-- The plan computed for sampleRequest on sampleMetadata. -/
def samplePlan : FrameExtractionPlan :=
  ⟨"/v.mp4", "/out", .uniform 100, 2, 5/3, 100, 54675/512, 10000, 60, 30,
    ⟨1920, 1080⟩⟩

/-- The plan computed for oversizedRequest on sampleMetadata; its
estimated storage of 6834375/512 MB (about 13349 MB) exceeds the quota. -/
def oversizedPlan : FrameExtractionPlan :=
  ⟨"/v.mp4", "/out", .uniform 10000, 1, 500/3, 10000, 6834375/512,
    1000000, 60, 30, ⟨1920, 1080⟩⟩

/-- The extraction result assembled from the inconsistent adapter's reply
on sampleRequest: totalFrames 2 but a single frame record. -/
def mismatchedResult : ExtractionResult :=
  ⟨[⟨0, 0, "a.jpg"⟩], 2, 54675/512, 100, .uniform 100⟩

/-! ## Shared helper lemmas -/

/-- Reduction of an Except bind on a success value. -/
theorem exceptOkBind {ε α β : Type} (a : α) (f : α → Except ε β) :
    (Except.ok (ε := ε) a >>= f) = f a := rfl

/-- Math.round is the identity on natural number inputs. -/
theorem jsRound_natCast (q : ℕ) : jsRound (q : ℚ) = q := by
  unfold jsRound
  rw [Int.floor_eq_iff]
  constructor
  · push_cast
    linarith
  · push_cast
    linarith

/-- Single-step monotonicity of the compression ratio lookup over the
integer quality range. -/
theorem getCompressionRatio_step (q : ℕ) (h1 : 1 ≤ q) (h2 : q ≤ 30) :
    getCompressionRatio ((q + 1 : ℕ) : ℚ) ≤ getCompressionRatio (q : ℚ) := by
  interval_cases q <;>
    norm_num [getCompressionRatio, JPEG_COMPRESSION_RATIOS, jsRound]

/-- The compression ratio lookup is antitone on integer qualities 1..31. -/
theorem getCompressionRatio_anti (q1 q2 : ℕ) (h1 : 1 ≤ q1)
    (h12 : q1 ≤ q2) (h2 : q2 ≤ 31) :
    getCompressionRatio (q2 : ℚ) ≤ getCompressionRatio (q1 : ℚ) := by
  induction q2, h12 using Nat.le_induction with
  | base => exact le_refl _
  | succ n hn ih =>
    have hn30 : n ≤ 30 := by omega
    have h1n : 1 ≤ n := le_trans h1 hn
    exact le_trans (getCompressionRatio_step n h1n hn30) (ih (by omega))

/-! ## Claims -/

/-- C4: for positive dimensions, estimateFrameStorageSize is monotonically
non-increasing in quality over the integers 1..31 - for q1 ≤ q2 in that
range both calls succeed and the estimate at q2 is at most the estimate at
q1. -/
theorem estimateFrameStorageSize_antitone_in_quality
    (width height : ℚ) (hw : 0 < width) (hh : 0 < height)
    (q1 q2 : ℕ) (h1 : 1 ≤ q1) (h12 : q1 ≤ q2) (h2 : q2 ≤ 31) :
    ∃ s1 s2, estimateFrameStorageSize width height (q1 : ℚ) = .ok s1 ∧
      estimateFrameStorageSize width height (q2 : ℚ) = .ok s2 ∧
      s2 ≤ s1 := by
  have hq1l : (1 : ℚ) ≤ (q1 : ℚ) := by exact_mod_cast h1
  have hq2l : (1 : ℚ) ≤ (q2 : ℚ) := by exact_mod_cast le_trans h1 h12
  have hq1u : (q1 : ℚ) ≤ 31 := by exact_mod_cast le_trans h12 h2
  have hq2u : (q2 : ℚ) ≤ 31 := by exact_mod_cast h2
  have hcond1 : ¬(width ≤ 0 ∨ height ≤ 0) := by push_neg; exact ⟨hw, hh⟩
  have hcond2 : ¬((q1 : ℚ) < 1 ∨ (q1 : ℚ) > 31) := by
    push_neg; exact ⟨hq1l, hq1u⟩
  have hcond3 : ¬((q2 : ℚ) < 1 ∨ (q2 : ℚ) > 31) := by
    push_neg; exact ⟨hq2l, hq2u⟩
  refine ⟨width * height * 3 * getCompressionRatio (q1 : ℚ) *
      SAFETY_MARGIN / (1024 * 1024),
    width * height * 3 * getCompressionRatio (q2 : ℚ) *
      SAFETY_MARGIN / (1024 * 1024), ?_, ?_, ?_⟩
  · simp only [estimateFrameStorageSize, if_neg hcond1, if_neg hcond2]
  · simp only [estimateFrameStorageSize, if_neg hcond1, if_neg hcond3]
  · have hr := getCompressionRatio_anti q1 q2 h1 h12 h2
    have hA : (0 : ℚ) ≤ width * height * 3 := by positivity
    have hmul : width * height * 3 * getCompressionRatio (q2 : ℚ) *
        SAFETY_MARGIN ≤
        width * height * 3 * getCompressionRatio (q1 : ℚ) *
        SAFETY_MARGIN := by
      apply mul_le_mul_of_nonneg_right (mul_le_mul_of_nonneg_left hr hA)
      norm_num [SAFETY_MARGIN]
    exact div_le_div_of_nonneg_right hmul (by norm_num)

/-- Witness for C4 at 1080p, qualities 1 and 2. -/
theorem estimateFrameStorageSize_antitone_witness :
    ∃ s1 s2, estimateFrameStorageSize 1920 1080 ((1 : ℕ) : ℚ) = .ok s1 ∧
      estimateFrameStorageSize 1920 1080 ((2 : ℕ) : ℚ) = .ok s2 ∧
      s2 ≤ s1 :=
  estimateFrameStorageSize_antitone_in_quality 1920 1080 (by norm_num)
    (by norm_num) 1 2 (by norm_num) (by norm_num) (by norm_num)

/-- C3: calculateExtractionFps computes frameCount/duration for uniform,
1/intervalSeconds for interval, nativeFps/frameInterval for frame-based,
nativeFps for all-frames and fps for custom-fps, and whenever the relevant
preconditions hold (positive parameters, positive metadata duration and
frame rate) the returned fps is strictly positive (and, being a rational,
finite). -/
theorem calculateExtractionFps_formulas_positive
    (metadata : VideoMetadata) (hdur : 0 < metadata.duration)
    (hfr : 0 < metadata.frameRate) :
    (∀ frameCount : ℚ, 0 < frameCount →
      calculateExtractionFps (.uniform frameCount) metadata =
        .ok (frameCount / metadata.duration) ∧
      0 < frameCount / metadata.duration) ∧
    (∀ intervalSeconds : ℚ, 0 < intervalSeconds →
      calculateExtractionFps (.interval intervalSeconds) metadata =
        .ok (1 / intervalSeconds) ∧
      0 < 1 / intervalSeconds) ∧
    (∀ frameInterval : ℚ, 0 < frameInterval →
      calculateExtractionFps (.frameBased frameInterval) metadata =
        .ok (metadata.frameRate / frameInterval) ∧
      0 < metadata.frameRate / frameInterval) ∧
    (calculateExtractionFps .allFrames metadata = .ok metadata.frameRate ∧
      0 < metadata.frameRate) ∧
    (∀ fps : ℚ, 0 < fps →
      calculateExtractionFps (.customFps fps) metadata = .ok fps ∧
      0 < fps) := by
  refine ⟨?_, ?_, ?_, ⟨rfl, hfr⟩, ?_⟩
  · intro frameCount hfc
    constructor
    · simp only [calculateExtractionFps, calculateUniformSamplingFps,
        if_neg (not_le.mpr hdur), if_neg (not_le.mpr hfc)]
    · exact div_pos hfc hdur
  · intro intervalSeconds hiv
    constructor
    · simp only [calculateExtractionFps, calculateIntervalBasedFps,
        if_neg (not_le.mpr hiv)]
    · exact div_pos one_pos hiv
  · intro frameInterval hfi
    constructor
    · simp only [calculateExtractionFps, calculateFrameBasedFps,
        if_neg (not_le.mpr hfi), if_neg (not_le.mpr hfr)]
    · exact div_pos hfr hfi
  · intro fps hfps
    exact ⟨rfl, hfps⟩

/-- Witness for C3 on the sample 60 s / 30 fps metadata. -/
theorem calculateExtractionFps_formulas_witness :
    (calculateExtractionFps (.uniform 100) sampleMetadata =
      .ok (100 / 60) ∧ (0 : ℚ) < 100 / 60) ∧
    (calculateExtractionFps (.interval 2) sampleMetadata =
      .ok (1 / 2) ∧ (0 : ℚ) < 1 / 2) ∧
    (calculateExtractionFps (.frameBased 30) sampleMetadata =
      .ok (30 / 30) ∧ (0 : ℚ) < 30 / 30) ∧
    (calculateExtractionFps .allFrames sampleMetadata = .ok 30 ∧
      (0 : ℚ) < 30) ∧
    (calculateExtractionFps (.customFps 5) sampleMetadata = .ok 5 ∧
      (0 : ℚ) < 5) := by
  have h := calculateExtractionFps_formulas_positive sampleMetadata
    (by norm_num [sampleMetadata]) (by norm_num [sampleMetadata])
  exact ⟨h.1 100 (by norm_num), h.2.1 2 (by norm_num),
    h.2.2.1 30 (by norm_num), h.2.2.2.1, h.2.2.2.2 5 (by norm_num)⟩

/-- C8 counterexample: on a custom-fps strategy with fps = -1,
calculateExtractionFps does not fail - it returns the non-positive value
unchanged, contradicting the claim that it fails with a
precondition-violation error. -/
theorem calculateExtractionFps_customFps_cex :
    calculateExtractionFps (.customFps (-1)) sampleMetadata = .ok (-1) :=
  rfl

/-- C8 (amended): the custom-fps branch of calculateExtractionFps returns
the strategy's fps unchanged for every fps, with no positivity check; a
non-positive custom fps is returned as-is rather than rejected
(fpsCalculations.ts lines 113-115). -/
theorem calculateExtractionFps_customFps_unchanged
    (fps : ℚ) (metadata : VideoMetadata) :
    calculateExtractionFps (.customFps fps) metadata = .ok fps := rfl

/-- C5: estimateTotalStorageSize equals frameCount times the per-frame
estimate for every nonnegative frame count and valid dimensions/quality;
a zero frame count yields 0 (returned before the per-frame size is even
computed) and a negative frame count fails. -/
theorem estimateTotalStorageSize_linear :
    (∀ frameCount width height quality : ℚ, 0 ≤ frameCount → 0 < width →
      0 < height → 1 ≤ quality → quality ≤ 31 →
      ∃ s, estimateFrameStorageSize width height quality = .ok s ∧
        estimateTotalStorageSize frameCount width height quality =
          .ok (frameCount * s)) ∧
    (∀ width height quality : ℚ,
      estimateTotalStorageSize 0 width height quality = .ok 0) ∧
    (∀ frameCount width height quality : ℚ, frameCount < 0 →
      estimateTotalStorageSize frameCount width height quality =
        .error "Frame count cannot be negative") := by
  refine ⟨?_, ?_, ?_⟩
  · intro frameCount width height quality hfc hw hh hq1 hq2
    have hcond1 : ¬(width ≤ 0 ∨ height ≤ 0) := by push_neg; exact ⟨hw, hh⟩
    have hcond2 : ¬(quality < 1 ∨ quality > 31) := by
      push_neg; exact ⟨hq1, hq2⟩
    refine ⟨width * height * 3 * getCompressionRatio quality *
      SAFETY_MARGIN / (1024 * 1024), ?_, ?_⟩
    · simp only [estimateFrameStorageSize, if_neg hcond1, if_neg hcond2]
    · by_cases h0 : frameCount = 0
      · subst h0
        simp only [estimateTotalStorageSize, lt_irrefl, if_false,
          eq_self_iff_true, if_true, zero_mul]
      · simp only [estimateTotalStorageSize, if_neg (not_lt.mpr hfc),
          if_neg h0, estimateFrameStorageSize, if_neg hcond1,
          if_neg hcond2, exceptOkBind, mul_comm]
  · intro width height quality
    simp [estimateTotalStorageSize]
  · intro frameCount width height quality hneg
    simp [estimateTotalStorageSize, if_pos hneg]

/-- Witness for C5 at 100 frames of 1080p, quality 2. -/
theorem estimateTotalStorageSize_linear_witness :
    (∃ s, estimateFrameStorageSize 1920 1080 2 = .ok s ∧
      estimateTotalStorageSize 100 1920 1080 2 = .ok (100 * s)) ∧
    estimateTotalStorageSize 0 1920 1080 2 = .ok 0 ∧
    estimateTotalStorageSize (-1) 1920 1080 2 =
      .error "Frame count cannot be negative" :=
  ⟨estimateTotalStorageSize_linear.1 100 1920 1080 2 (by norm_num)
      (by norm_num) (by norm_num) (by norm_num) (by norm_num),
    estimateTotalStorageSize_linear.2.1 1920 1080 2,
    estimateTotalStorageSize_linear.2.2 (-1) 1920 1080 2 (by norm_num)⟩

/-- Index-generalized specification of the helper underlying
generateFrameInfos: for positive fps it succeeds, preserves the number and
order of paths, and numbers frames consecutively from the start index. -/
theorem generateFrameInfosAux_spec (fps : ℚ) (hfps : 0 < fps) :
    ∀ (paths : List String) (start : ℕ),
      ∃ l, generateFrameInfosAux fps start paths = .ok l ∧
        l.length = paths.length ∧
        l.map FrameInfo.path = paths ∧
        ∀ i, ∀ hi : i < l.length,
          (l.get ⟨i, hi⟩).frameNumber = ((start + i : ℕ) : ℚ) ∧
          (l.get ⟨i, hi⟩).timestamp = ((start + i : ℕ) : ℚ) / fps := by
  intro paths
  induction paths with
  | nil =>
    intro start
    exact ⟨[], rfl, rfl, rfl, fun i hi => absurd hi (by simp)⟩
  | cons p rest ih =>
    intro start
    obtain ⟨l, hl, hlen, hmap, hidx⟩ := ih (start + 1)
    have hnneg : ¬((start : ℚ) < 0) := by
      push_neg
      positivity
    have hts : calculateFrameTimestamp (start : ℚ) fps =
        .ok ((start : ℚ) / fps) := by
      simp only [calculateFrameTimestamp, if_neg hnneg,
        if_neg (not_le.mpr hfps)]
    refine ⟨⟨(start : ℚ), (start : ℚ) / fps, p⟩ :: l, ?_, ?_, ?_, ?_⟩
    · simp only [generateFrameInfosAux, hts, hl, exceptOkBind]
    · simp [hlen]
    · simp [hmap]
    · intro i hi
      cases i with
      | zero => simp
      | succ j =>
        have hj : j < l.length := by simpa using hi
        have hIdx := hidx j hj
        have hcast : ((start + 1 + j : ℕ) : ℚ) = ((start + (j + 1) : ℕ) : ℚ) := by
          congr 1
          omega
        constructor
        · simpa [hcast] using hIdx.1
        · simpa [hcast] using hIdx.2

/-- C6: for positive fps, generateFrameInfos succeeds with one FrameInfo
per input path in the same order, where entry i has frameNumber i,
timestamp i/fps and the i-th path; the empty input yields the empty
output; non-positive fps fails. -/
theorem generateFrameInfos_indexing :
    (∀ (paths : List String) (fps : ℚ), 0 < fps →
      ∃ l, generateFrameInfos paths fps = .ok l ∧
        l.length = paths.length ∧
        l.map FrameInfo.path = paths ∧
        ∀ i, ∀ hi : i < l.length,
          (l.get ⟨i, hi⟩).frameNumber = (i : ℚ) ∧
          (l.get ⟨i, hi⟩).timestamp = (i : ℚ) / fps) ∧
    (∀ fps : ℚ, 0 < fps → generateFrameInfos [] fps = .ok []) ∧
    (∀ (paths : List String) (fps : ℚ), fps ≤ 0 →
      generateFrameInfos paths fps = .error "FPS must be greater than 0") := by
  refine ⟨?_, ?_, ?_⟩
  · intro paths fps hfps
    obtain ⟨l, hl, hlen, hmap, hidx⟩ :=
      generateFrameInfosAux_spec fps hfps paths 0
    refine ⟨l, ?_, hlen, hmap, ?_⟩
    · simp only [generateFrameInfos, if_neg (not_le.mpr hfps), hl]
    · intro i hi
      have := hidx i hi
      simpa using this
  · intro fps hfps
    simp only [generateFrameInfos, if_neg (not_le.mpr hfps),
      generateFrameInfosAux]
  · intro paths fps hfps
    simp only [generateFrameInfos, if_pos hfps]

/-- Witness for C6 on the spec's two-path scenario at 10 fps. -/
theorem generateFrameInfos_indexing_witness :
    (∃ l, generateFrameInfos ["a.jpg", "b.jpg"] 10 = .ok l ∧
      l.length = (["a.jpg", "b.jpg"] : List String).length ∧
      l.map FrameInfo.path = ["a.jpg", "b.jpg"] ∧
      ∀ i, ∀ hi : i < l.length,
        (l.get ⟨i, hi⟩).frameNumber = (i : ℚ) ∧
        (l.get ⟨i, hi⟩).timestamp = (i : ℚ) / 10) ∧
    generateFrameInfos [] 10 = .ok [] ∧
    generateFrameInfos ["a.jpg"] 0 =
      .error "FPS must be greater than 0" :=
  ⟨generateFrameInfos_indexing.1 ["a.jpg", "b.jpg"] 10 (by norm_num),
    generateFrameInfos_indexing.2.1 10 (by norm_num),
    generateFrameInfos_indexing.2.2 ["a.jpg"] 0 (by norm_num)⟩

/-- C2: validateRequest returns exactly the concatenation of the four
sub-validator outputs (videoPath, outputDirectory, strategy, optional
quality) with no short-circuiting; the result is valid exactly when that
concatenation is empty; and the all-invalid scenario request (empty paths,
uniform frameCount 0, quality 0) produces valid:false with 4 errors, one
per violated field. -/
theorem validateRequest_aggregates_all_errors :
    (∀ request : FrameExtractionRequest,
      validateRequest request =
        if (requestValidationErrors request).isEmpty then .valid
        else .invalid (requestValidationErrors request)) ∧
    (∀ request : FrameExtractionRequest,
      validateRequest request = .valid ↔
        requestValidationErrors request = []) ∧
    validateRequest invalidRequest =
      .invalid [⟨"videoPath", "videoPath cannot be empty", "EMPTY_PATH"⟩,
        ⟨"outputDirectory", "outputDirectory cannot be empty",
          "EMPTY_PATH"⟩,
        ⟨"frameCount", "Frame count must be at least 1",
          "FRAME_COUNT_TOO_LOW"⟩,
        ⟨"quality", "Quality must be between 1 and 31",
          "QUALITY_OUT_OF_RANGE"⟩] := by
  refine ⟨fun _ => rfl, ?_, by decide⟩
  intro request
  unfold validateRequest
  by_cases h : (requestValidationErrors request).isEmpty
  · simp [h, List.isEmpty_iff.mp h]
  · simp only [h, if_false]
    constructor
    · intro hcontra
      exact absurd hcontra (by simp)
    · intro hempty
      exact absurd (List.isEmpty_iff.mpr hempty) h

/-- Witness for C2: a fully valid request validates via the iff. -/
theorem validateRequest_aggregates_witness :
    validateRequest sampleRequest = .valid :=
  (validateRequest_aggregates_all_errors.2.1 sampleRequest).mpr (by decide)

/-- C9: isWarning classifies exactly the LARGE_FILE_WARNING code as a
warning; any file with non-missing uri/fileName whose size strictly
exceeds 500 MB gets a LARGE_FILE_WARNING error that isWarning accepts; no
result for a file at or below the threshold ever contains that code; and a
well-formed mp4 file of exactly 500 MB validates cleanly. -/
theorem validateVideoFile_large_file_warning :
    (∀ e : ValidationError,
      isWarning e = true ↔ e.code = "LARGE_FILE_WARNING") ∧
    (∀ file : VideoFile, jsTrim file.uri ≠ "" → jsTrim file.fileName ≠ "" →
      LARGE_FILE_THRESHOLD_BYTES < file.fileSize →
      ∃ errs, validateVideoFile file = .invalid errs ∧
        ∃ e ∈ errs, e.code = "LARGE_FILE_WARNING" ∧ isWarning e = true) ∧
    (∀ file : VideoFile, file.fileSize ≤ LARGE_FILE_THRESHOLD_BYTES →
      ∀ errs, validateVideoFile file = .invalid errs →
        ∀ e ∈ errs, e.code ≠ "LARGE_FILE_WARNING") ∧
    validateVideoFile
      ⟨"file:///v.mp4", "v.mp4", some "video/mp4",
        LARGE_FILE_THRESHOLD_BYTES⟩ = .valid := by
  refine ⟨?_, ?_, ?_, ?_⟩
  · intro e
    simp [isWarning]
  · intro file huri hname hsize
    simp only [validateVideoFile, if_neg huri, if_neg hname,
      List.nil_append, if_pos hsize]
    simp only [ne_eq, not_true_eq_false, if_false]
    rw [if_neg]
    · refine ⟨_, rfl, ⟨"fileSize",
        "Large video file (" ++
          toString (jsRound (file.fileSize / (1024 * 1024))) ++
          " MB) may take longer to process and use significant storage.",
        "LARGE_FILE_WARNING"⟩, ?_, rfl, by simp [isWarning]⟩
      simp [List.mem_append]
    · rw [List.isEmpty_iff]
      simp
  · intro file hsize errs hres e hmem
    obtain ⟨uri, fileName, ftype, fileSize⟩ := file
    have hC : ¬(fileSize > LARGE_FILE_THRESHOLD_BYTES) := not_lt.mpr hsize
    cases ftype with
    | none =>
      simp only [validateVideoFile, if_neg hC, List.append_nil] at hres
      split_ifs at hres <;>
        first
          | exact ValidationResult.noConfusion hres
          | (injection hres with h; subst h;
             try simp only [List.append_assoc, List.cons_append,
               List.nil_append, List.append_nil] at hmem;
             fin_cases hmem <;> simp)
    | some t =>
      simp only [validateVideoFile, if_neg hC, List.append_nil] at hres
      split_ifs at hres <;>
        first
          | exact ValidationResult.noConfusion hres
          | (injection hres with h; subst h;
             try simp only [List.append_assoc, List.cons_append,
               List.nil_append, List.append_nil] at hmem;
             fin_cases hmem <;> simp)
  · have h1 : jsTrim "file:///v.mp4" = "file:///v.mp4" := by decide
    have h2 : jsTrim "v.mp4" = "v.mp4" := by decide
    have hext : SUPPORTED_VIDEO_EXTENSIONS.any
        (fun ext => jsEndsWith (jsToLower "v.mp4") ext) = true := by decide
    have hmime : "video/mp4" ∈ SUPPORTED_MIME_TYPES := by decide
    simp [validateVideoFile, h1, h2, hext, hmime, lt_irrefl]

/-- Witness for C9: a 500 MB + 1 byte file draws the warning; an
unsupported 100-byte text file fails without any warning code. -/
theorem validateVideoFile_large_file_warning_witness :
    (∃ errs, validateVideoFile ⟨"file:///v.mp4", "v.mp4",
        some "video/mp4", 500 * 1024 * 1024 + 1⟩ = .invalid errs ∧
      ∃ e ∈ errs, e.code = "LARGE_FILE_WARNING" ∧ isWarning e = true) ∧
    (⟨"fileName",
        "Unsupported video format. Please select one of: " ++
          String.intercalate ", " SUPPORTED_VIDEO_EXTENSIONS,
        "UNSUPPORTED_FORMAT"⟩ : ValidationError).code ≠
      "LARGE_FILE_WARNING" :=
  ⟨validateVideoFile_large_file_warning.2.1
      ⟨"file:///v.mp4", "v.mp4", some "video/mp4",
        500 * 1024 * 1024 + 1⟩
      (by decide) (by decide)
      (by norm_num [LARGE_FILE_THRESHOLD_BYTES]),
    validateVideoFile_large_file_warning.2.2.1
      ⟨"file:///v.txt", "v.txt", none, 100⟩
      (by norm_num [LARGE_FILE_THRESHOLD_BYTES])
      [⟨"fileName",
        "Unsupported video format. Please select one of: " ++
          String.intercalate ", " SUPPORTED_VIDEO_EXTENSIONS,
        "UNSUPPORTED_FORMAT"⟩]
      (by
        have h1 : jsTrim "file:///v.txt" = "file:///v.txt" := by decide
        have h2 : jsTrim "v.txt" = "v.txt" := by decide
        have hext : SUPPORTED_VIDEO_EXTENSIONS.any
            (fun ext => jsEndsWith (jsToLower "v.txt") ext) = false := by
          decide
        have hne1 : ("file:///v.txt" = "") = False := by decide
        have hne2 : ("v.txt" = "") = False := by decide
        norm_num [validateVideoFile, h1, h2, hext, hne1, hne2,
          LARGE_FILE_THRESHOLD_BYTES])
      _ (by simp)⟩

/-- A successful generateFrameInfos call yields exactly one FrameInfo per
input path. -/
theorem generateFrameInfos_ok_length (paths : List String) (fps : ℚ)
    (frames : List FrameInfo)
    (h : generateFrameInfos paths fps = .ok frames) :
    frames.length = paths.length := by
  by_cases hfps : fps ≤ 0
  · rw [generateFrameInfos, if_pos hfps] at h
    exact Except.noConfusion h
  · obtain ⟨l, hl, hlen, _, _⟩ :=
      generateFrameInfosAux_spec fps (not_le.mp hfps) paths 0
    rw [generateFrameInfos, if_neg hfps, hl] at h
    injection h with h
    subst h
    exact hlen

/-- Shape of every successful transformResult: totalFrames is copied from
the adapter-reported frameCount, actualStorageMB from the plan estimate,
processing time from the adapter, strategy from the plan, and frames from
generateFrameInfos on the adapter's ordered output paths. -/
theorem transformResult_ok (adapterResult : FrameExtractionResult)
    (plan : FrameExtractionPlan) (result : ExtractionResult)
    (h : FrameExtractionService.transformResult adapterResult plan =
      .ok result) :
    result.totalFrames = adapterResult.frameCount ∧
    result.actualStorageMB = plan.estimatedStorageMB ∧
    result.processingTimeMs = adapterResult.processingTimeMs ∧
    result.strategy = plan.strategy ∧
    generateFrameInfos adapterResult.outputPaths plan.extractionFps =
      .ok result.frames := by
  unfold FrameExtractionService.transformResult at h
  cases hgen : generateFrameInfos adapterResult.outputPaths
      plan.extractionFps with
  | error e =>
    rw [hgen] at h
    exact Except.noConfusion h
  | ok frames =>
    rw [hgen] at h
    simp only [exceptOkBind] at h
    injection h with h
    subst h
    exact ⟨rfl, rfl, rfl, rfl, rfl⟩

/-- C7 (amended): the assembled ExtractionResult copies totalFrames from
the capability-reported frameCount and builds one frame record per output
path; totalFrames equals frames.length exactly when the capability reports
a frameCount equal to the number of output paths - the service itself does
not reconcile them. -/
theorem transformResult_totalFrames_reconciled
    (adapterResult : FrameExtractionResult) (plan : FrameExtractionPlan)
    (result : ExtractionResult)
    (h : FrameExtractionService.transformResult adapterResult plan =
      .ok result) :
    result.totalFrames = adapterResult.frameCount ∧
    result.frames.length = adapterResult.outputPaths.length ∧
    (adapterResult.frameCount = (adapterResult.outputPaths.length : ℚ) →
      result.totalFrames = (result.frames.length : ℚ)) := by
  obtain ⟨htot, _, _, _, hgen⟩ := transformResult_ok adapterResult plan
    result h
  have hlen := generateFrameInfos_ok_length _ _ _ hgen
  refine ⟨htot, hlen, ?_⟩
  intro hrec
  rw [htot, hrec, hlen]

/-- C7 counterexample: a successful end-to-end extraction through an
adapter that reports frameCount 2 while producing one path yields an
ExtractionResult with totalFrames 2 but frames.length 1, refuting the
claim that every successful extraction satisfies
totalFrames = frames.length. -/
theorem transformResult_totalFrames_cex :
    (FrameExtractionService.extractFrames inconsistentAdapter
        sampleRequest).1 = .ok mismatchedResult ∧
    mismatchedResult.totalFrames = 2 ∧
    mismatchedResult.frames.length = 1 ∧
    mismatchedResult.totalFrames ≠ (mismatchedResult.frames.length : ℚ) := by
  have hval : validateRequest ⟨"/v.mp4", "/out", .uniform 100, some 2⟩ =
      .valid := by decide
  refine ⟨?_, rfl, rfl, by norm_num [mismatchedResult]⟩
  norm_num [FrameExtractionService.extractFrames, sampleRequest, hval,
    inconsistentAdapter, sampleMetadata, FrameExtractionService.createPlan,
    calculateExtractionFps, calculateUniformSamplingFps,
    estimateFrameCount, jsRound, estimateTotalStorageSize,
    estimateFrameStorageSize, getCompressionRatio,
    JPEG_COMPRESSION_RATIOS, SAFETY_MARGIN, estimateProcessingDuration,
    VALIDATION_RULES.DEFAULT_QUALITY, validateStorageEstimate,
    VALIDATION_RULES.MAX_ESTIMATED_STORAGE_MB,
    FrameExtractionService.planToAdapterConfig,
    FrameExtractionService.transformResult, generateFrameInfos,
    generateFrameInfosAux, calculateFrameTimestamp, exceptOkBind,
    mismatchedResult]

/-- Witness for C7 (amended) on a consistent adapter reply. -/
theorem transformResult_totalFrames_witness :
    (FrameExtractionService.transformResult ⟨["a.jpg", "b.jpg"], 2, 100⟩
        samplePlan = .ok
        ⟨[⟨0, 0, "a.jpg"⟩, ⟨1, 3/5, "b.jpg"⟩], 2, 54675/512, 100,
          .uniform 100⟩) ∧
    (⟨[⟨0, 0, "a.jpg"⟩, ⟨1, 3/5, "b.jpg"⟩], 2, 54675/512, 100,
        .uniform 100⟩ : ExtractionResult).totalFrames =
      ((⟨[⟨0, 0, "a.jpg"⟩, ⟨1, 3/5, "b.jpg"⟩], 2, 54675/512, 100,
        .uniform 100⟩ : ExtractionResult).frames.length : ℚ) := by
  have htr : FrameExtractionService.transformResult
      ⟨["a.jpg", "b.jpg"], 2, 100⟩ samplePlan = .ok
      ⟨[⟨0, 0, "a.jpg"⟩, ⟨1, 3/5, "b.jpg"⟩], 2, 54675/512, 100,
        .uniform 100⟩ := by
    norm_num [FrameExtractionService.transformResult, samplePlan,
      generateFrameInfos, generateFrameInfosAux, calculateFrameTimestamp,
      exceptOkBind]
  refine ⟨htr, ?_⟩
  exact (transformResult_totalFrames_reconciled _ _ _ htr).2.2
    (by norm_num)

/-- C10: actual storage is never measured - calculateActualStorageSize
always returns 0 (and is unused by the service), transformResult copies
the plan's pre-extraction estimatedStorageMB into actualStorageMB, and
every successful service extraction reports actualStorageMB equal to the
estimate of the plan computed before extraction. -/
theorem extractFrames_actualStorage_is_estimate :
    (∀ paths : List String, calculateActualStorageSize paths = 0) ∧
    (∀ (adapterResult : FrameExtractionResult)
        (plan : FrameExtractionPlan) (result : ExtractionResult),
      FrameExtractionService.transformResult adapterResult plan =
        .ok result →
      result.actualStorageMB = plan.estimatedStorageMB) ∧
    (∀ (adapter : VideoProcessingAdapter)
        (request : FrameExtractionRequest) (result : ExtractionResult)
        (calls : List CapCall),
      FrameExtractionService.extractFrames adapter request =
        (.ok result, calls) →
      ∃ metadata plan,
        adapter.getVideoMetadata request.videoPath = .ok metadata ∧
        FrameExtractionService.createPlan request metadata = .ok plan ∧
        result.actualStorageMB = plan.estimatedStorageMB) := by
  refine ⟨fun _ => rfl, ?_, ?_⟩
  · intro adapterResult plan result h
    exact (transformResult_ok _ _ _ h).2.1
  · intro adapter request result calls h
    unfold FrameExtractionService.extractFrames at h
    cases hval : validateRequest request with
    | invalid errors =>
      simp only [hval] at h
      exact absurd (congrArg Prod.fst h) (by simp)
    | valid =>
      simp only [hval] at h
      cases hmeta : adapter.getVideoMetadata request.videoPath with
      | error e =>
        simp only [hmeta] at h
        exact absurd (congrArg Prod.fst h) (by simp)
      | ok metadata =>
        simp only [hmeta] at h
        cases hplan : FrameExtractionService.createPlan request metadata with
        | error msg =>
          simp only [hplan] at h
          exact absurd (congrArg Prod.fst h) (by simp)
        | ok plan =>
          simp only [hplan] at h
          cases hstor : validateStorageEstimate plan.estimatedStorageMB with
          | cons e rest =>
            simp only [hstor] at h
            exact absurd (congrArg Prod.fst h) (by simp)
          | nil =>
            simp only [hstor] at h
            cases hex : adapter.extractFrames
                (FrameExtractionService.planToAdapterConfig plan) with
            | error e =>
              simp only [hex] at h
              exact absurd (congrArg Prod.fst h) (by simp)
            | ok adapterResult =>
              simp only [hex] at h
              cases htr : FrameExtractionService.transformResult
                  adapterResult plan with
              | error msg =>
                simp only [htr] at h
                exact absurd (congrArg Prod.fst h) (by simp)
              | ok r =>
                simp only [htr] at h
                have hr : r = result := by
                  have := congrArg Prod.fst h
                  simpa using this
                subst hr
                exact ⟨metadata, plan, rfl, hplan,
                  (transformResult_ok _ _ _ htr).2.1⟩

/-- Witness for C10 on the sample adapter and request. -/
theorem extractFrames_actualStorage_witness :
    calculateActualStorageSize ["a.jpg"] = 0 ∧
    (∃ metadata plan,
      sampleAdapter.getVideoMetadata sampleRequest.videoPath =
        .ok metadata ∧
      FrameExtractionService.createPlan sampleRequest metadata =
        .ok plan ∧
      (⟨[⟨0, 0, "a.jpg"⟩, ⟨1, 3/5, "b.jpg"⟩], 2, 54675/512, 100,
        .uniform 100⟩ : ExtractionResult).actualStorageMB =
        plan.estimatedStorageMB) := by
  have hval : validateRequest ⟨"/v.mp4", "/out", .uniform 100, some 2⟩ =
      .valid := by decide
  have hsvc : FrameExtractionService.extractFrames sampleAdapter
      sampleRequest =
      (.ok ⟨[⟨0, 0, "a.jpg"⟩, ⟨1, 3/5, "b.jpg"⟩], 2, 54675/512, 100,
          .uniform 100⟩,
        [.getMetadata "/v.mp4",
          .extract ⟨"/v.mp4", "/out", some (5/3), some 2⟩]) := by
    norm_num [FrameExtractionService.extractFrames, sampleRequest, hval,
      sampleAdapter, sampleMetadata, FrameExtractionService.createPlan,
      calculateExtractionFps, calculateUniformSamplingFps,
      estimateFrameCount, jsRound, estimateTotalStorageSize,
      estimateFrameStorageSize, getCompressionRatio,
      JPEG_COMPRESSION_RATIOS, SAFETY_MARGIN, estimateProcessingDuration,
      VALIDATION_RULES.DEFAULT_QUALITY, validateStorageEstimate,
      VALIDATION_RULES.MAX_ESTIMATED_STORAGE_MB,
      FrameExtractionService.planToAdapterConfig,
      FrameExtractionService.transformResult, generateFrameInfos,
      generateFrameInfosAux, calculateFrameTimestamp, exceptOkBind]
  exact ⟨extractFrames_actualStorage_is_estimate.1 ["a.jpg"],
    extractFrames_actualStorage_is_estimate.2.2 sampleAdapter
      sampleRequest _ _ hsvc⟩

/-- C1: when validation fails, extractFrames returns an INVALID_PARAMS
error carrying the full validation error list and the capability call log
is empty - neither metadata fetch nor extraction runs, for every adapter;
and when validation passes but the plan's estimated storage exceeds the
5000 MB quota, extractFrames returns an INSUFFICIENT_STORAGE error
carrying the storage errors and the call log contains only the metadata
fetch - the external extraction operation is never invoked.  (In the
rational model every estimate is finite, so the claim's finiteness proviso
is automatic.) -/
theorem extractFrames_stops_on_validation_and_quota :
    (∀ (adapter : VideoProcessingAdapter)
        (request : FrameExtractionRequest)
        (errors : List ValidationError),
      validateRequest request = .invalid errors →
      FrameExtractionService.extractFrames adapter request =
        (.error (.vp ⟨"Invalid extraction request: " ++
            String.intercalate ", " (errors.map (fun e => e.message)),
          .INVALID_PARAMS, errors⟩), [])) ∧
    (∀ (adapter : VideoProcessingAdapter)
        (request : FrameExtractionRequest) (metadata : VideoMetadata)
        (plan : FrameExtractionPlan),
      validateRequest request = .valid →
      adapter.getVideoMetadata request.videoPath = .ok metadata →
      FrameExtractionService.createPlan request metadata = .ok plan →
      VALIDATION_RULES.MAX_ESTIMATED_STORAGE_MB <
        plan.estimatedStorageMB →
      ∃ e : VideoProcessingError,
        FrameExtractionService.extractFrames adapter request =
          (.error (.vp e), [.getMetadata request.videoPath]) ∧
        e.code = .INSUFFICIENT_STORAGE ∧
        e.originalError = validateStorageEstimate
          plan.estimatedStorageMB) := by
  constructor
  · intro adapter request errors hval
    unfold FrameExtractionService.extractFrames
    simp only [hval]
  · intro adapter request metadata plan hval hmeta hplan hquota
    have hstor : validateStorageEstimate plan.estimatedStorageMB =
        [⟨"estimatedStorageMB",
          "Estimated storage (" ++
            toString (jsRound plan.estimatedStorageMB) ++
            "MB) exceeds limit of 5000MB",
          "STORAGE_LIMIT_EXCEEDED"⟩] := by
      unfold validateStorageEstimate
      rw [if_pos hquota]
    refine ⟨⟨"Estimated storage (" ++
        toString (jsRound plan.estimatedStorageMB) ++
        "MB) exceeds limit of 5000MB", .INSUFFICIENT_STORAGE,
      validateStorageEstimate plan.estimatedStorageMB⟩, ?_, rfl, rfl⟩
    unfold FrameExtractionService.extractFrames
    simp only [hval, hmeta, hplan, hstor]

/-- Witness for C1: the all-invalid request stops before any capability
call; the spec's 10000-frame quality-1 1080p scenario stops with
insufficient storage after only the metadata fetch. -/
theorem extractFrames_stops_witness :
    (FrameExtractionService.extractFrames sampleAdapter invalidRequest =
      (.error (.vp ⟨"Invalid extraction request: " ++
          String.intercalate ", "
            (([⟨"videoPath", "videoPath cannot be empty", "EMPTY_PATH"⟩,
              ⟨"outputDirectory", "outputDirectory cannot be empty",
                "EMPTY_PATH"⟩,
              ⟨"frameCount", "Frame count must be at least 1",
                "FRAME_COUNT_TOO_LOW"⟩,
              ⟨"quality", "Quality must be between 1 and 31",
                "QUALITY_OUT_OF_RANGE"⟩] : List ValidationError).map
              (fun e => e.message)),
        .INVALID_PARAMS,
        [⟨"videoPath", "videoPath cannot be empty", "EMPTY_PATH"⟩,
          ⟨"outputDirectory", "outputDirectory cannot be empty",
            "EMPTY_PATH"⟩,
          ⟨"frameCount", "Frame count must be at least 1",
            "FRAME_COUNT_TOO_LOW"⟩,
          ⟨"quality", "Quality must be between 1 and 31",
            "QUALITY_OUT_OF_RANGE"⟩]⟩), [])) ∧
    (∃ e : VideoProcessingError,
      FrameExtractionService.extractFrames sampleAdapter
          oversizedRequest =
        (.error (.vp e), [.getMetadata oversizedRequest.videoPath]) ∧
      e.code = .INSUFFICIENT_STORAGE ∧
      e.originalError =
        validateStorageEstimate oversizedPlan.estimatedStorageMB) :=
  ⟨extractFrames_stops_on_validation_and_quota.1 sampleAdapter
      invalidRequest _ (by decide),
    extractFrames_stops_on_validation_and_quota.2 sampleAdapter
      oversizedRequest sampleMetadata oversizedPlan (by decide) rfl
      (by
        norm_num [FrameExtractionService.createPlan, oversizedRequest,
          sampleMetadata, oversizedPlan, calculateExtractionFps,
          calculateUniformSamplingFps, estimateFrameCount, jsRound,
          estimateTotalStorageSize, estimateFrameStorageSize,
          getCompressionRatio, JPEG_COMPRESSION_RATIOS, SAFETY_MARGIN,
          estimateProcessingDuration, VALIDATION_RULES.DEFAULT_QUALITY,
          exceptOkBind])
      (by
        norm_num [oversizedPlan,
          VALIDATION_RULES.MAX_ESTIMATED_STORAGE_MB])⟩
